import Mathlib

/-!
Verification of the mock-data seeding routine (`src/mockdata.ts`) and the
`ContactFormSubmission` model of the portfolio backend.

The TypeScript code is shallowly embedded: the MongoDB collections become
explicit state (`DataStore`), each datastore call becomes a pure state
transformation, datastore failures are injected through an explicit fault
record (`Faults`), and a thrown exception becomes the `Outcome.raised`
result.  Timestamps are `Int` seconds (the code computes
`Math.floor(Date.now() / 1000)`), and the wall clock is a parameter `now`.
-/

namespace Portfolio

/-- A datastore error as raised by the MongoDB driver: an optional numeric
error code (`11000` is the duplicate-key / uniqueness-conflict code) and a
message, used by the code as the error description via `toString()`. -/
structure MError where
  code : Option Nat
  msg : String
  deriving DecidableEq, Repr

/-- A stored contact-form submission document (the `contact_form_submissions`
collection holds documents of shape `Omit<ContactFormSubmission, "id">`). -/
structure Submission where
  name : String
  email : String
  subject : String
  message : String
  submission_timestamp : Int
  deriving DecidableEq, Repr

/-- The `mock_data_execution` record at the fixed id
`ObjectId("000000000000000000000001")`.  Every field is optional because the
document is built up across several `$setOnInsert` / `$set` updates. -/
structure SeedStatus where
  executed : Option Bool
  timestamp : Option Int
  instanceTag : Option String
  completed : Option Bool
  completedTimestamp : Option Int
  failed : Option Bool
  failedTimestamp : Option Int
  error : Option String
  deriving DecidableEq, Repr

/-- The datastore state seen by the seeder: the singleton `SeedStatus` record
(at the fixed well-known id) and the submissions collection. -/
structure DataStore where
  seedStatus : Option SeedStatus
  submissions : List Submission
  deriving DecidableEq, Repr

/-- A fresh datastore: no `SeedStatus` record, empty submissions collection. -/
def freshStore : DataStore := { seedStatus := none, submissions := [] }

/-- The fixed build-time batch of example submissions from `insertMockData`
(src/mockdata.ts lines 12-123).  `now` stands for
`Math.floor(Date.now() / 1000)`; the `toDocument` helper on each literal only
copies the object and carries no data. -/
def mockSubmissions (now : Int) : List Submission :=
  [ { name := "Rajesh Kumar",
      email := "rajesh.kumar@example.com",
      subject := "Collaboration Opportunity",
      message := "Hi Kaviya, I came across your portfolio and I\x27m impressed with your full-stack development skills. I\x27d like to discuss a potential collaboration on a MERN stack project. Please let me know if you\x27re interested.",
      submission_timestamp := now - 86400 * 7 },
    { name := "Priya Sharma",
      email := "priya.sharma@techcorp.com",
      subject := "Job Opportunity - Senior Full Stack Developer",
      message := "Hello Kaviya, We are looking for a talented Full Stack Developer to join our team. Your experience with React, Node.js, and MongoDB aligns perfectly with our requirements. Would you be available for a discussion?",
      submission_timestamp := now - 86400 * 5 },
    { name := "Arun Patel",
      email := "arun.patel@startup.io",
      subject := "Freelance Project Inquiry",
      message := "Hi, I\x27m working on a weather application and noticed your weather project in your portfolio. I\x27d love to discuss a freelance opportunity to build something similar with additional features. Let me know your availability.",
      submission_timestamp := now - 86400 * 3 },
    { name := "Sneha Reddy",
      email := "sneha.reddy@designstudio.com",
      subject := "UI/UX Collaboration",
      message := "Hello Kaviya, I\x27m a UI/UX designer and I\x27m impressed by your portfolio design. I\x27d like to collaborate on some projects where we can combine our skills. Are you open to freelance work?",
      submission_timestamp := now - 86400 * 2 },
    { name := "Vikram Singh",
      email := "vikram.singh@gmail.com",
      subject := "Question about GitHub Profile Finder",
      message := "Hey Kaviya, I really liked your GitHub Profile Finder project. I\x27m a beginner developer and would love to know more about how you implemented it. Could you share some insights or resources?",
      submission_timestamp := now - 86400 },
    { name := "Meera Iyer",
      email := "meera.iyer@webagency.com",
      subject := "Portfolio Website Development",
      message := "Hi Kaviya, Our agency is looking for a developer to build portfolio websites for our clients. Your portfolio is exactly the kind of quality we\x27re looking for. Would you be interested in taking on such projects?",
      submission_timestamp := now - 43200 },
    { name := "Karthik Menon",
      email := "karthik.menon@example.com",
      subject := "Mentorship Request",
      message := "Hello Kaviya, I\x27m a student learning full-stack development and I\x27m really inspired by your work. Would you be open to mentoring or providing guidance on my learning journey? I\x27d really appreciate any help.",
      submission_timestamp := now - 21600 },
    { name := "Divya Nair",
      email := "divya.nair@techsolutions.in",
      subject := "Recipe Finder App - Partnership",
      message := "Hi Kaviya, I run a food blog and I\x27m interested in integrating a recipe finder feature similar to your project. Would you be interested in discussing a partnership or custom development work?",
      submission_timestamp := now - 7200 },
    { name := "Arjun Desai",
      email := "arjun.desai@innovate.com",
      subject := "Speaking Opportunity at Tech Conference",
      message := "Hello Kaviya, We\x27re organizing a tech conference in Coimbatore and would love to have you as a speaker to share your experience as a Full Stack Developer. Please let us know if you\x27d be interested.",
      submission_timestamp := now - 3600 },
    { name := "Lakshmi Krishnan",
      email := "lakshmi.k@devteam.com",
      subject := "Budget Tracking App Inquiry",
      message := "Hi Kaviya, I saw your budget tracking application and I\x27m interested in having a similar app developed for our small business. Could we schedule a call to discuss the requirements and pricing?",
      submission_timestamp := now - 1800 } ]

/-- The time offsets (in seconds before `now`) of the batch items, in the
build-time list order. -/
def mockOffsets : List Int :=
  [86400 * 7, 86400 * 5, 86400 * 3, 86400 * 2, 86400, 43200, 21600, 7200, 3600, 1800]

/-- `insertMockData` (src/mockdata.ts lines 7-126): `insertMany` of the fixed
batch into `contact_form_submissions`, inside the caller's session. -/
def insertMockData (now : Int) (subs : List Submission) : List Submission :=
  subs ++ mockSubmissions now

/-- The document produced by the `$setOnInsert` clause of the lock upsert
(src/mockdata.ts lines 149-153) when no record exists yet: `executed`,
`timestamp` and the random `instance` token, nothing else. -/
def lockRecord (now : Int) (inst : String) : SeedStatus :=
  { executed := some true
    timestamp := some now
    instanceTag := some inst
    completed := none
    completedTimestamp := none
    failed := none
    failedTimestamp := none
    error := none }

/-- The conditional-insert lock acquisition (src/mockdata.ts lines 146-156):
`updateOne` on the fixed id with `$setOnInsert` and `upsert: true`.  Returns
the record after the call and whether `upsertedCount` was `1`.  On a match
the `$setOnInsert` mutation does not apply, so the record is returned
unchanged. -/
def lockUpsert (now : Int) (inst : String) (st : Option SeedStatus) :
    Option SeedStatus × Bool :=
  match st with
  | some r => (some r, false)
  | none => (some (lockRecord now inst), true)

/-- The `$set` of the completion update inside the transaction
(src/mockdata.ts lines 173-182). -/
def completionUpdate (now : Int) (r : SeedStatus) : SeedStatus :=
  { r with completed := some true, completedTimestamp := some now }

/-- The `$set` of the best-effort failure bookkeeping update
(src/mockdata.ts lines 190-199). -/
def failedUpdate (now : Int) (e : MError) (r : SeedStatus) : SeedStatus :=
  { r with failed := some true, failedTimestamp := some now, error := some e.msg }

/-- Injected datastore failures for one invocation: `lockFault` makes the
lock upsert itself raise, `txnFault` makes the transaction body (batch insert
or completion update) raise, `statusFault` makes the best-effort failure
update raise. `none` means the corresponding call succeeds. -/
structure Faults where
  lockFault : Option MError
  txnFault : Option MError
  statusFault : Option MError
  deriving DecidableEq, Repr

/-- A fault-free invocation. -/
def noFaults : Faults := { lockFault := none, txnFault := none, statusFault := none }

/-- What the async function reports to its caller: normal return, or a
rejected promise carrying the error. -/
inductive Outcome where
  | ok
  | raised (e : MError)
  deriving DecidableEq, Repr

/-- `populate_with_mock_data` (src/mockdata.ts lines 134-217).  Takes the
module-level `populationAttempted` flag, the clock, the random instance
token, the injected faults and the datastore; returns the new flag, the new
datastore and the outcome.

Control flow mirrors the source: early return on the in-process flag; the
flag is set before any datastore call; the lock upsert either raises
(`lockFault`), matches (skip), or inserts; on insert the transaction runs
(`insertMockData` then the completion `$set`), committing both writes or —
on `txnFault` — rolling both back, then performing the best-effort failure
update outside any transaction and rethrowing; the outer catch turns any
error with code `11000` into a logged success and rethrows the rest. -/
def populate_with_mock_data (attempted : Bool) (now : Int) (inst : String)
    (f : Faults) (ds : DataStore) : Bool × DataStore × Outcome :=
  if attempted then
    (attempted, ds, Outcome.ok)
  else
    match f.lockFault with
    | some e =>
        if e.code = some 11000 then (true, ds, Outcome.ok)
        else (true, ds, Outcome.raised e)
    | none =>
        match lockUpsert now inst ds.seedStatus with
        | (st1, false) =>
            (true, { ds with seedStatus := st1 }, Outcome.ok)
        | (st1, true) =>
            match f.txnFault with
            | none =>
                (true,
                 { ds with
                     submissions := insertMockData now ds.submissions
                     seedStatus := Option.map (completionUpdate now) st1 },
                 Outcome.ok)
            | some e =>
                let ds2 : DataStore :=
                  match f.statusFault with
                  | none => { ds with seedStatus := Option.map (failedUpdate now e) st1 }
                  | some _ => { ds with seedStatus := st1 }
                if e.code = some 11000 then (true, ds2, Outcome.ok)
                else (true, ds2, Outcome.raised e)

/-- Reduction lemma: with the in-process flag already set, the call is a no-op
returning success. -/
theorem populate_attempted_eq (now : Int) (inst : String) (f : Faults) (ds : DataStore) :
    populate_with_mock_data true now inst f ds = (true, ds, Outcome.ok) := rfl

/-- Reduction lemma: the lock upsert raises `e`; the outer catch swallows it
exactly when its code is 11000. -/
theorem populate_lockFail_eq (now : Int) (inst : String) (e : MError)
    (tf sf : Option MError) (ds : DataStore) :
    populate_with_mock_data false now inst
        { lockFault := some e, txnFault := tf, statusFault := sf } ds
      = (true, ds, if e.code = some 11000 then Outcome.ok else Outcome.raised e) := by
  by_cases hc : e.code = some 11000 <;> simp [populate_with_mock_data, hc]

/-- Reduction lemma: the SeedStatus record already exists, so the upsert
matches and the call skips with success, leaving the store unchanged. -/
theorem populate_skip_eq (now : Int) (inst : String) (tf sf : Option MError)
    (r : SeedStatus) (subs : List Submission) :
    populate_with_mock_data false now inst
        { lockFault := none, txnFault := tf, statusFault := sf }
        { seedStatus := some r, submissions := subs }
      = (true, { seedStatus := some r, submissions := subs }, Outcome.ok) := rfl

/-- Reduction lemma: fresh store, no faults — the lock is inserted, the batch
is inserted and the record is marked completed. -/
theorem populate_fresh_ok_eq (now : Int) (inst : String) (sf : Option MError)
    (subs : List Submission) :
    populate_with_mock_data false now inst
        { lockFault := none, txnFault := none, statusFault := sf }
        { seedStatus := none, submissions := subs }
      = (true,
         { seedStatus := some (completionUpdate now (lockRecord now inst)),
           submissions := insertMockData now subs },
         Outcome.ok) := rfl

/-- Reduction lemma: fresh store, the transaction raises `e` and the
best-effort failure update succeeds — the transaction is rolled back and the
record is marked failed. -/
theorem populate_txnFail_none_eq (now : Int) (inst : String) (e : MError)
    (subs : List Submission) :
    populate_with_mock_data false now inst
        { lockFault := none, txnFault := some e, statusFault := none }
        { seedStatus := none, submissions := subs }
      = (true,
         { seedStatus := some (failedUpdate now e (lockRecord now inst)),
           submissions := subs },
         if e.code = some 11000 then Outcome.ok else Outcome.raised e) := by
  by_cases hc : e.code = some 11000 <;> simp [populate_with_mock_data, lockUpsert, hc]

/-- Reduction lemma: fresh store, the transaction raises `e` and the
best-effort failure update itself raises — the secondary error is swallowed
and the record keeps only the lock fields. -/
theorem populate_txnFail_some_eq (now : Int) (inst : String) (e e2 : MError)
    (subs : List Submission) :
    populate_with_mock_data false now inst
        { lockFault := none, txnFault := some e, statusFault := some e2 }
        { seedStatus := none, submissions := subs }
      = (true,
         { seedStatus := some (lockRecord now inst), submissions := subs },
         if e.code = some 11000 then Outcome.ok else Outcome.raised e) := by
  by_cases hc : e.code = some 11000 <;> simp [populate_with_mock_data, lockUpsert, hc]

/-- Claim C7: the build-time batch is a fixed-size (10) list in which every
item has all four string fields non-empty, each item's timestamp is `now`
minus a fixed offset, the offsets strictly decrease across the batch in list
order, and hence the timestamps strictly increase, so the last item is the
most recent. -/
theorem mock_batch_shape (now : Int) :
    (mockSubmissions now).length = 10 ∧
    (∀ s ∈ mockSubmissions now,
      s.name ≠ "" ∧ s.email ≠ "" ∧ s.subject ≠ "" ∧ s.message ≠ "") ∧
    (mockSubmissions now).map Submission.submission_timestamp
      = mockOffsets.map (fun d => now - d) ∧
    mockOffsets.Chain' (fun a b => a > b) ∧
    ((mockSubmissions now).map Submission.submission_timestamp).Chain'
      (fun a b => a < b) := by
  refine ⟨rfl, ?_, rfl, ?_, ?_⟩
  · intro s hs
    simp only [mockSubmissions, List.mem_cons, List.not_mem_nil, or_false] at hs
    rcases hs with rfl | rfl | rfl | rfl | rfl | rfl | rfl | rfl | rfl | rfl <;>
      refine ⟨?_, ?_, ?_, ?_⟩ <;> simp
  · simp only [mockOffsets, List.chain'_cons, List.chain'_singleton, and_true]
    norm_num
  · simp only [mockSubmissions, List.map_cons, List.map_nil, List.chain'_cons,
      List.chain'_singleton, and_true]
    omega

/-- Claim C8: the conditional lock insert (`$setOnInsert` with upsert) leaves
an existing record entirely unchanged and reports no upsert; the `executed`,
`timestamp` and `instance` fields are set only when a new record is
inserted. -/
theorem lockUpsert_frame (now : Int) (inst : String) (r : SeedStatus) :
    lockUpsert now inst (some r) = (some r, false) ∧
    lockUpsert now inst none = (some (lockRecord now inst), true) :=
  ⟨rfl, rfl⟩

/-- Claim C3: when the SeedStatus record already exists (with
`executed = true`), a fault-free call performs zero writes — the datastore is
returned unchanged — and returns successfully. -/
theorem already_seeded_short_circuit (now : Int) (inst : String)
    (ds : DataStore) (r : SeedStatus) (h : ds.seedStatus = some r)
    (_hexec : r.executed = some true) :
    populate_with_mock_data false now inst noFaults ds = (true, ds, Outcome.ok) := by
  obtain ⟨st, subs⟩ := ds
  dsimp only at h
  subst h
  exact populate_skip_eq now inst none none r subs

/-- Witness for `already_seeded_short_circuit` at a concrete store. -/
theorem already_seeded_short_circuit_witness :
    ({ seedStatus := some (lockRecord 5 "w"), submissions := [] } : DataStore).seedStatus
        = some (lockRecord 5 "w") ∧
    (lockRecord 5 "w").executed = some true ∧
    populate_with_mock_data false 7 "x" noFaults
        { seedStatus := some (lockRecord 5 "w"), submissions := [] }
      = (true, { seedStatus := some (lockRecord 5 "w"), submissions := [] }, Outcome.ok) :=
  ⟨rfl, rfl, already_seeded_short_circuit 7 "x" _ (lockRecord 5 "w") rfl rfl⟩

/-- Claim C4: after a first call (whatever its faults and outcome) the
in-process flag is set, a call with the flag set is a pure no-op returning
success, and across the two sequential calls the batch is inserted at most
once. -/
theorem in_process_idempotence (now1 now2 : Int) (i1 i2 : String)
    (f1 f2 : Faults) (ds : DataStore) :
    (populate_with_mock_data false now1 i1 f1 ds).1 = true ∧
    (∀ ds2 : DataStore,
      populate_with_mock_data true now2 i2 f2 ds2 = (true, ds2, Outcome.ok)) ∧
    ((populate_with_mock_data false now1 i1 f1 ds).2.1.submissions = ds.submissions ∨
     (populate_with_mock_data false now1 i1 f1 ds).2.1.submissions
        = insertMockData now1 ds.submissions) := by
  obtain ⟨lf, tf, sf⟩ := f1
  obtain ⟨st, subs⟩ := ds
  refine ⟨?_, fun ds2 => rfl, ?_⟩
  · cases lf with
    | some e => rw [populate_lockFail_eq]
    | none =>
      cases st with
      | some r => rw [populate_skip_eq]
      | none =>
        cases tf with
        | none => rw [populate_fresh_ok_eq]
        | some e =>
          cases sf with
          | none => rw [populate_txnFail_none_eq]
          | some e2 => rw [populate_txnFail_some_eq]
  · cases lf with
    | some e => rw [populate_lockFail_eq]; exact Or.inl rfl
    | none =>
      cases st with
      | some r => rw [populate_skip_eq]; exact Or.inl rfl
      | none =>
        cases tf with
        | none => rw [populate_fresh_ok_eq]; exact Or.inr rfl
        | some e =>
          cases sf with
          | none => rw [populate_txnFail_none_eq]; exact Or.inl rfl
          | some e2 => rw [populate_txnFail_some_eq]; exact Or.inl rfl

/-- Claim C2: lock acquired on a fresh store, the transaction is forced to
fail (and only it): the batch insert is rolled back — the submissions
collection stays empty — and the SeedStatus record ends with `failed = true`
and no `completed` field. -/
theorem transactional_atomicity (now : Int) (inst : String) (e : MError)
    (ds : DataStore) (h1 : ds.seedStatus = none) (h2 : ds.submissions = [])
    (f : Faults) (hl : f.lockFault = none) (ht : f.txnFault = some e)
    (hs : f.statusFault = none) :
    (populate_with_mock_data false now inst f ds).2.1.submissions = [] ∧
    ∃ r, (populate_with_mock_data false now inst f ds).2.1.seedStatus = some r ∧
      r.failed = some true ∧ r.completed = none := by
  obtain ⟨lf, tf, sf⟩ := f
  obtain ⟨st, subs⟩ := ds
  dsimp only at h1 h2 hl ht hs
  subst h1 h2 hl ht hs
  rw [populate_txnFail_none_eq]
  exact ⟨rfl, failedUpdate now e (lockRecord now inst), rfl, rfl, rfl⟩

/-- Witness for `transactional_atomicity` at a concrete input. -/
theorem transactional_atomicity_witness :
    (freshStore.seedStatus = none ∧ freshStore.submissions = [] ∧
     ({ lockFault := none, txnFault := some { code := none, msg := "boom" },
        statusFault := none } : Faults).lockFault = none) ∧
    ((populate_with_mock_data false 100 "w2"
        { lockFault := none, txnFault := some { code := none, msg := "boom" },
          statusFault := none } freshStore).2.1.submissions = [] ∧
     ∃ r, (populate_with_mock_data false 100 "w2"
        { lockFault := none, txnFault := some { code := none, msg := "boom" },
          statusFault := none } freshStore).2.1.seedStatus = some r ∧
        r.failed = some true ∧ r.completed = none) :=
  ⟨⟨rfl, rfl, rfl⟩,
   transactional_atomicity 100 "w2" { code := none, msg := "boom" } freshStore
     rfl rfl _ rfl rfl rfl⟩

/-- Claim C5 counterexample: a failure raised during the transactional phase
whose error code is 11000 is not re-raised to the caller — the call returns
success, against the claim that every transactional-phase failure is
re-raised. -/
theorem txn_dup_key_swallowed :
    (populate_with_mock_data false 1000 "i"
      { lockFault := none,
        txnFault := some { code := some 11000, msg := "E11000 duplicate key" },
        statusFault := none }
      freshStore).2.2 = Outcome.ok := by
  rw [show freshStore = { seedStatus := none, submissions := [] } from rfl,
    populate_txnFail_none_eq]
  simp

/-- Claim C5 (amended): the call re-raises a lock-phase failure or a
transactional-phase failure exactly when its error code is not 11000; any
error with code 11000 — from either phase — yields a logged success. -/
theorem seed_error_propagation (now : Int) (inst : String) (e : MError)
    (ds : DataStore) (tf sf : Option MError) :
    (populate_with_mock_data false now inst
        { lockFault := some e, txnFault := tf, statusFault := sf } ds).2.2
      = (if e.code = some 11000 then Outcome.ok else Outcome.raised e) ∧
    (ds.seedStatus = none →
      (populate_with_mock_data false now inst
          { lockFault := none, txnFault := some e, statusFault := sf } ds).2.2
        = (if e.code = some 11000 then Outcome.ok else Outcome.raised e)) := by
  constructor
  · rw [populate_lockFail_eq]
  · intro h
    obtain ⟨st, subs⟩ := ds
    dsimp only at h
    subst h
    cases sf with
    | none => rw [populate_txnFail_none_eq]
    | some e2 => rw [populate_txnFail_some_eq]

/-- Witness for `seed_error_propagation` at a concrete input. -/
theorem seed_error_propagation_witness :
    freshStore.seedStatus = none ∧
    (populate_with_mock_data false 3 "w5"
        { lockFault := none, txnFault := some { code := none, msg := "down" },
          statusFault := none } freshStore).2.2
      = (if ({ code := none, msg := "down" } : MError).code = some 11000
          then Outcome.ok else Outcome.raised { code := none, msg := "down" }) :=
  ⟨rfl, (seed_error_propagation 3 "w5" { code := none, msg := "down" }
      freshStore none none).2 rfl⟩

/-- Claim C6 counterexample: a transactional failure whose code is 11000 is
not raised to the caller at all — the call returns success — against the
claim that the original failure is always the one raised. -/
theorem original_error_swallowed :
    (populate_with_mock_data false 2000 "j"
      { lockFault := none,
        txnFault := some { code := some 11000, msg := "E11000 dup" },
        statusFault := some { code := none, msg := "net down" } }
      freshStore).2.2 = Outcome.ok := by
  rw [show freshStore = { seedStatus := none, submissions := [] } from rfl,
    populate_txnFail_some_eq]
  simp

/-- Claim C6 (amended): on a transactional failure the code performs a
best-effort update setting `failed`, `failedTimestamp` and the error
description; if that update itself fails the record keeps only the lock
fields and the secondary error is never propagated; the outcome is the
original failure re-raised — unless its code is 11000, in which case the
call returns success. -/
theorem failure_bookkeeping (now : Int) (inst : String) (e e2 : MError)
    (ds : DataStore) (h : ds.seedStatus = none) :
    (∃ r, (populate_with_mock_data false now inst
        { lockFault := none, txnFault := some e, statusFault := none } ds).2.1.seedStatus
          = some r ∧ r.failed = some true ∧ r.failedTimestamp = some now ∧
          r.error = some e.msg) ∧
    ((populate_with_mock_data false now inst
        { lockFault := none, txnFault := some e, statusFault := some e2 } ds).2.1.seedStatus
      = some (lockRecord now inst)) ∧
    (∀ sf : Option MError,
      (populate_with_mock_data false now inst
          { lockFault := none, txnFault := some e, statusFault := sf } ds).2.2
        = (if e.code = some 11000 then Outcome.ok else Outcome.raised e)) := by
  obtain ⟨st, subs⟩ := ds
  dsimp only at h
  subst h
  refine ⟨⟨failedUpdate now e (lockRecord now inst), ?_, rfl, rfl, rfl⟩, ?_, ?_⟩
  · rw [populate_txnFail_none_eq]
  · rw [populate_txnFail_some_eq]
  · intro sf
    cases sf with
    | none => rw [populate_txnFail_none_eq]
    | some e3 => rw [populate_txnFail_some_eq]

/-- Witness for `failure_bookkeeping` at a concrete input. -/
theorem failure_bookkeeping_witness :
    freshStore.seedStatus = none ∧
    (∀ sf : Option MError,
      (populate_with_mock_data false 9 "w6"
          { lockFault := none, txnFault := some { code := some 7, msg := "tx" },
            statusFault := sf } freshStore).2.2
        = (if ({ code := some 7, msg := "tx" } : MError).code = some 11000
            then Outcome.ok
            else Outcome.raised { code := some 7, msg := "tx" })) :=
  ⟨rfl, (failure_bookkeeping 9 "w6" { code := some 7, msg := "tx" }
      { code := none, msg := "y" } freshStore rfl).2.2⟩

/-! ## Concurrent invocations

Several OS processes may race through `populate_with_mock_data` at boot.
Per the code, each racing process is single-threaded, starts with its
in-process flag clear and runs fault-free; the datastore serializes the two
operations a winning process performs — the atomic insert-if-absent lock
upsert and the atomic transaction commit.  A system run is any interleaving
(schedule) of these atomic steps. -/

/-- Program counter of one process running the seeding routine: before its
lock upsert, holding the lock (about to run the transaction), or finished —
recording whether this invocation performed the batch insert. -/
inductive PC where
  | start
  | locked
  | done (didInsert : Bool)
  deriving DecidableEq, Repr

/-- One atomic datastore step of a process, built from the same operations
as `populate_with_mock_data`: at `start` the lock upsert decides winner or
skip; at `locked` the transaction commits the batch insert together with the
completion update. -/
def procStep (now : Int) (inst : String) (ds : DataStore) (p : PC) : DataStore × PC :=
  match p with
  | PC.start =>
      match lockUpsert now inst ds.seedStatus with
      | (st1, true) => ({ ds with seedStatus := st1 }, PC.locked)
      | (st1, false) => ({ ds with seedStatus := st1 }, PC.done false)
  | PC.locked =>
      ({ ds with
           submissions := insertMockData now ds.submissions
           seedStatus := Option.map (completionUpdate now) ds.seedStatus },
       PC.done true)
  | PC.done b => (ds, PC.done b)

/-- Advance the process chosen by the scheduler by one atomic step. -/
def schedStep (now : Int) (inst : String) (s : DataStore × List PC) (i : Nat) :
    DataStore × List PC :=
  match s.2[i]? with
  | none => s
  | some p => ((procStep now inst s.1 p).1, s.2.set i (procStep now inst s.1 p).2)

/-- Run a whole schedule (a list of process indices). -/
def runSched (now : Int) (inst : String) (s : DataStore × List PC) :
    List Nat → DataStore × List PC
  | [] => s
  | i :: rest => runSched now inst (schedStep now inst s i) rest

theorem procStep_start_none (now : Int) (inst : String) (subs : List Submission) :
    procStep now inst { seedStatus := none, submissions := subs } PC.start
      = ({ seedStatus := some (lockRecord now inst), submissions := subs }, PC.locked) := rfl

theorem procStep_start_some (now : Int) (inst : String) (r : SeedStatus)
    (subs : List Submission) :
    procStep now inst { seedStatus := some r, submissions := subs } PC.start
      = ({ seedStatus := some r, submissions := subs }, PC.done false) := rfl

theorem procStep_locked_eq (now : Int) (inst : String) (st : Option SeedStatus)
    (subs : List Submission) :
    procStep now inst { seedStatus := st, submissions := subs } PC.locked
      = ({ seedStatus := Option.map (completionUpdate now) st,
           submissions := insertMockData now subs }, PC.done true) := rfl

theorem procStep_done_eq (now : Int) (inst : String) (ds : DataStore) (b : Bool) :
    procStep now inst ds (PC.done b) = (ds, PC.done b) := rfl

theorem schedStep_none_eq (now : Int) (inst : String) (s : DataStore × List PC)
    (i : Nat) (hp : s.2[i]? = none) : schedStep now inst s i = s := by
  unfold schedStep
  rw [hp]

theorem schedStep_some_eq (now : Int) (inst : String) (s : DataStore × List PC)
    (i : Nat) (p : PC) (hp : s.2[i]? = some p) :
    schedStep now inst s i
      = ((procStep now inst s.1 p).1, s.2.set i (procStep now inst s.1 p).2) := by
  unfold schedStep
  rw [hp]

/-- Occurrence count of one program-counter value. -/
def pcCount (a : PC) : List PC → Nat
  | [] => 0
  | p :: rest => (if p = a then 1 else 0) + pcCount a rest

/-- Number of processes whose invocation performed the batch insert. -/
def insCount (pcs : List PC) : Nat := pcCount (PC.done true) pcs

/-- Number of processes that hold or have used the lock. -/
def winCount (pcs : List PC) : Nat :=
  pcCount PC.locked pcs + pcCount (PC.done true) pcs

theorem pcCount_set (a b : PC) (pcs : List PC) (i : Nat) (hi : i < pcs.length) :
    pcCount a (pcs.set i b) + (if pcs[i] = a then 1 else 0)
      = pcCount a pcs + (if b = a then 1 else 0) := by
  induction pcs generalizing i with
  | nil => simp at hi
  | cons p t ih =>
    cases i with
    | zero =>
      simp only [List.set, pcCount, List.getElem_cons_zero]
      omega
    | succ n =>
      simp only [List.set, pcCount, List.getElem_cons_succ]
      have := ih n (by simpa using hi)
      omega

theorem pcCount_eq_zero (a : PC) (pcs : List PC) (h : ∀ p ∈ pcs, p ≠ a) :
    pcCount a pcs = 0 := by
  induction pcs with
  | nil => rfl
  | cons p t ih =>
    simp only [pcCount]
    rw [if_neg (h p (List.mem_cons_self p t)), ih fun q hq => h q (List.mem_cons_of_mem p hq)]

theorem pcCount_pos (a : PC) (pcs : List PC) (h : a ∈ pcs) : 0 < pcCount a pcs := by
  induction pcs with
  | nil => cases h
  | cons p t ih =>
    simp only [pcCount]
    rcases List.mem_cons.mp h with rfl | hmem
    · simp
    · have := ih hmem
      omega

theorem mockSubmissions_ne_nil (now : Int) : mockSubmissions now ≠ [] := by
  simp [mockSubmissions]

/-- System invariant of any number of racing seeding processes: while no one
has touched the lock record the store is fresh and every process is at
`start`; once the record exists exactly one process has won the lock; the
submissions collection holds nothing or exactly one copy of the batch, the
latter exactly when one process has performed the batch insert. -/
def SeedInv (now : Int) (ds : DataStore) (pcs : List PC) : Prop :=
  (ds.seedStatus = none → ds.submissions = [] ∧ ∀ p ∈ pcs, p = PC.start) ∧
  (ds.seedStatus ≠ none → winCount pcs = 1) ∧
  (ds.submissions = [] ∨ ds.submissions = mockSubmissions now) ∧
  (ds.submissions = mockSubmissions now ↔ insCount pcs = 1)

theorem schedStep_inv (now : Int) (inst : String) (ds : DataStore) (pcs : List PC)
    (i : Nat) (h : SeedInv now ds pcs) :
    SeedInv now (schedStep now inst (ds, pcs) i).1 (schedStep now inst (ds, pcs) i).2 := by
  obtain ⟨hfresh, hwin, hsubs, hiff⟩ := h
  cases hp : pcs[i]? with
  | none =>
    rw [schedStep_none_eq now inst (ds, pcs) i hp]
    exact ⟨hfresh, hwin, hsubs, hiff⟩
  | some p =>
    rw [schedStep_some_eq now inst (ds, pcs) i p hp]
    obtain ⟨hi, hieq⟩ := List.getElem?_eq_some.mp hp
    have hpmem : p ∈ pcs := List.getElem?_mem hp
    obtain ⟨st, subs⟩ := ds
    dsimp only at hfresh hwin hsubs hiff ⊢
    cases p with
    | start =>
      cases st with
      | none =>
        obtain ⟨hsub0, hall⟩ := hfresh rfl
        subst hsub0
        rw [procStep_start_none]
        dsimp only
        have h1 := pcCount_set PC.locked PC.locked pcs i hi
        have h2 := pcCount_set (PC.done true) PC.locked pcs i hi
        rw [hieq] at h1 h2
        simp at h1 h2
        have hz1 : pcCount PC.locked pcs = 0 :=
          pcCount_eq_zero _ _ fun q hq => by rw [hall q hq]; simp
        have hz2 : pcCount (PC.done true) pcs = 0 :=
          pcCount_eq_zero _ _ fun q hq => by rw [hall q hq]; simp
        refine ⟨fun hno => absurd hno (by simp), fun _ => ?_, Or.inl rfl, ?_⟩
        · simp only [winCount]
          omega
        · constructor
          · intro hmock
            exact absurd hmock.symm (mockSubmissions_ne_nil now)
          · intro hone
            exfalso
            simp only [insCount] at hone
            omega
      | some r =>
        rw [procStep_start_some]
        dsimp only
        have h1 := pcCount_set PC.locked (PC.done false) pcs i hi
        have h2 := pcCount_set (PC.done true) (PC.done false) pcs i hi
        rw [hieq] at h1 h2
        simp at h1 h2
        have hw := hwin (by simp)
        refine ⟨fun hno => absurd hno (by simp), fun _ => ?_, hsubs, ?_⟩
        · simp only [winCount] at hw ⊢
          omega
        · simp only [insCount] at hiff ⊢
          rw [h2]
          exact hiff
    | locked =>
      have hstsome : st ≠ none := by
        intro hno
        subst hno
        have := (hfresh rfl).2 PC.locked hpmem
        simp at this
      cases st with
      | none => exact absurd rfl hstsome
      | some r =>
        rw [procStep_locked_eq]
        dsimp only
        have hw := hwin (by simp)
        simp only [winCount] at hw
        have hlpos : 0 < pcCount PC.locked pcs := pcCount_pos _ _ hpmem
        have hins0 : pcCount (PC.done true) pcs = 0 := by omega
        have hsub0 : subs = [] := by
          rcases hsubs with h0 | hm
          · exact h0
          · have := hiff.mp hm
            simp only [insCount] at this
            omega
        subst hsub0
        have h1 := pcCount_set PC.locked (PC.done true) pcs i hi
        have h2 := pcCount_set (PC.done true) (PC.done true) pcs i hi
        rw [hieq] at h1 h2
        simp at h1 h2
        refine ⟨fun hno => absurd hno (by simp), fun _ => ?_, Or.inr ?_, ?_⟩
        · simp only [winCount]
          omega
        · show insertMockData now [] = mockSubmissions now
          simp [insertMockData]
        · constructor
          · intro _
            simp only [insCount]
            omega
          · intro _
            show insertMockData now [] = mockSubmissions now
            simp [insertMockData]
    | done b =>
      rw [procStep_done_eq]
      dsimp only
      have h1 := pcCount_set PC.locked (PC.done b) pcs i hi
      have h2 := pcCount_set (PC.done true) (PC.done b) pcs i hi
      rw [hieq] at h1 h2
      cases b <;>
      · simp at h1 h2
        refine ⟨fun hno => ?_, fun hne => ?_, hsubs, ?_⟩
        · obtain ⟨hsub0, hall⟩ := hfresh hno
          exact absurd (hall _ hpmem) (by simp)
        · have hw := hwin hne
          simp only [winCount] at hw ⊢
          omega
        · simp only [insCount] at hiff ⊢
          rw [h2]
          exact hiff

theorem runSched_inv (now : Int) (inst : String) (sch : List Nat)
    (s : DataStore × List PC) (h : SeedInv now s.1 s.2) :
    SeedInv now (runSched now inst s sch).1 (runSched now inst s sch).2 := by
  induction sch generalizing s with
  | nil => exact h
  | cons i rest ih =>
    exact ih (schedStep now inst s i) (schedStep_inv now inst s.1 s.2 i h)

theorem seedInv_init (now : Int) (n : Nat) :
    SeedInv now freshStore (List.replicate n PC.start) := by
  refine ⟨fun _ => ⟨rfl, fun p hp => List.eq_of_mem_replicate hp⟩,
    fun hne => absurd rfl hne, Or.inl rfl, ?_⟩
  constructor
  · intro hmock
    exact absurd hmock.symm (mockSubmissions_ne_nil now)
  · intro hone
    exfalso
    have hz : pcCount (PC.done true) (List.replicate n PC.start) = 0 :=
      pcCount_eq_zero _ _ fun q hq => by rw [List.eq_of_mem_replicate hq]; simp
    simp only [insCount] at hone
    omega

theorem runSched_length (now : Int) (inst : String) (sch : List Nat)
    (s : DataStore × List PC) :
    (runSched now inst s sch).2.length = s.2.length := by
  induction sch generalizing s with
  | nil => rfl
  | cons i rest ih =>
    rw [runSched, ih]
    cases hp : s.2[i]? with
    | none => rw [schedStep_none_eq now inst s i hp]
    | some p =>
      rw [schedStep_some_eq now inst s i p hp]
      exact List.length_set s.2 i _

/-- Claim C1: for every number `n ≥ 1` of processes concurrently invoking the
seeding routine against a fresh datastore (no SeedStatus record, empty
submissions collection), under every schedule that runs all of them to
completion, exactly one invocation performs the batch insert and the
submissions store ends with exactly one copy of the fixed 10-item batch — no
duplicates and no partial batches. -/
theorem at_most_one_seed (now : Int) (inst : String) (n : Nat) (hn : 1 ≤ n)
    (sch : List Nat)
    (hdone : ∀ p ∈ (runSched now inst (freshStore, List.replicate n PC.start) sch).2,
      ∃ b, p = PC.done b) :
    (runSched now inst (freshStore, List.replicate n PC.start) sch).1.submissions
      = mockSubmissions now ∧
    insCount (runSched now inst (freshStore, List.replicate n PC.start) sch).2 = 1 := by
  have hinv := runSched_inv now inst sch (freshStore, List.replicate n PC.start)
    (seedInv_init now n)
  set s := runSched now inst (freshStore, List.replicate n PC.start) sch with hs
  have hlen : s.2.length = n := by
    rw [hs, runSched_length]
    simp
  have hpos : 0 < s.2.length := by omega
  have hmem0 : s.2[0] ∈ s.2 := List.getElem_mem hpos
  obtain ⟨b0, hb0⟩ := hdone _ hmem0
  have hnotnone : s.1.seedStatus ≠ none := by
    intro hno
    have := (hinv.1 hno).2 _ hmem0
    rw [hb0] at this
    simp at this
  have hw1 : winCount s.2 = 1 := hinv.2.1 hnotnone
  have hl0 : pcCount PC.locked s.2 = 0 :=
    pcCount_eq_zero _ _ fun a ha => by
      obtain ⟨b, hb⟩ := hdone a ha
      rw [hb]
      simp
  have hins1 : insCount s.2 = 1 := by
    simp only [winCount] at hw1
    simp only [insCount]
    omega
  exact ⟨hinv.2.2.2.mpr hins1, hins1⟩

/-- Witness for `at_most_one_seed`: two processes; the schedule lets the
first win the lock, the second observe the record and skip, then the first
commit the transaction. -/
theorem at_most_one_seed_witness :
    (1 ≤ 2 ∧
     ∀ p ∈ (runSched 0 "tok" (freshStore, List.replicate 2 PC.start) [0, 1, 0]).2,
       ∃ b, p = PC.done b) ∧
    ((runSched 0 "tok" (freshStore, List.replicate 2 PC.start) [0, 1, 0]).1.submissions
        = mockSubmissions 0 ∧
     insCount (runSched 0 "tok" (freshStore, List.replicate 2 PC.start) [0, 1, 0]).2 = 1) := by
  have hb : ∀ p ∈ (runSched 0 "tok" (freshStore, List.replicate 2 PC.start) [0, 1, 0]).2,
      ∃ b, p = PC.done b := by
    intro p hp
    rw [show (runSched 0 "tok" (freshStore, List.replicate 2 PC.start) [0, 1, 0]).2
        = [PC.done true, PC.done false] from rfl] at hp
    simp only [List.mem_cons, List.not_mem_nil, or_false] at hp
    rcases hp with rfl | rfl
    · exact ⟨true, rfl⟩
    · exact ⟨false, rfl⟩
  exact ⟨⟨by omega, hb⟩, at_most_one_seed 0 "tok" 2 (by omega) [0, 1, 0] hb⟩

/-! ## The ContactFormSubmission model

`src` also ships a `ContactFormSubmission` class wrapping the
`contact_form_submissions` collection with static `create` / `get_by_id` /
`update` / `delete` methods, each with a catch-all error handler.  The
collection is modelled as an association list keyed by the hex string of the
document's `_id`; a `some` fault makes the datastore call inside the `try`
block throw. -/

/-- A `ContactFormSubmission` class instance: the stored fields plus the
`_id` rendered as a hex string. -/
structure ContactFormSubmission where
  id : String
  name : String
  email : String
  subject : String
  message : String
  submission_timestamp : Int
  deriving DecidableEq, Repr

/-- The `updateFields` argument of `update`, typed
`Partial<Omit<ContactFormSubmission, "id">>`: every stored field is
optional, including `submission_timestamp`. -/
structure UpdateFields where
  name : Option String
  email : Option String
  subject : Option String
  message : Option String
  submission_timestamp : Option Int
  deriving DecidableEq, Repr

/-- MongoDB `$set` with the present fields of `updateFields`. -/
def applySet (u : UpdateFields) (d : Submission) : Submission :=
  { name := u.name.getD d.name
    email := u.email.getD d.email
    subject := u.subject.getD d.subject
    message := u.message.getD d.message
    submission_timestamp := u.submission_timestamp.getD d.submission_timestamp }

/-- `findOne({ _id })`: the first document with the given id. -/
def findDoc : List (String × Submission) → String → Option Submission
  | [], _ => none
  | kv :: rest, i => if kv.1 = i then some kv.2 else findDoc rest i

/-- Replace the first document with the given id (the mutation step of
`findOneAndUpdate`; `_id` values are unique in a MongoDB collection). -/
def setDoc : List (String × Submission) → String → Submission → List (String × Submission)
  | [], _, _ => []
  | kv :: rest, i, d => if kv.1 = i then (i, d) :: rest else kv :: setDoc rest i d

/-- `deleteOne({ _id })`: remove the first matching document and report
`deletedCount`. -/
def deleteDoc : List (String × Submission) → String → List (String × Submission) × Nat
  | [], _ => ([], 0)
  | kv :: rest, i =>
      if kv.1 = i then (rest, 1)
      else (kv :: (deleteDoc rest i).1, (deleteDoc rest i).2)

/-- `ContactFormSubmission.create` (src/unnamed/part_000 lines 70-106):
computes `submission_timestamp` from the clock (`now`), inserts, and returns
the new instance; any thrown error is caught, logged and turned into `null`.
`newId` stands for the ObjectId the store assigns. -/
def ContactFormSubmission.create (fault : Option MError) (now : Int) (newId : String)
    (store : List (String × Submission)) (name email subject message : String) :
    List (String × Submission) × Option ContactFormSubmission :=
  match fault with
  | some _ => (store, none)
  | none =>
      (store ++ [(newId, { name := name, email := email, subject := subject,
                           message := message, submission_timestamp := now })],
       some { id := newId, name := name, email := email, subject := subject,
              message := message, submission_timestamp := now })

/-- `ContactFormSubmission.get_by_id` (lines 113-123): `findOne` plus
`fromDocument`; errors are caught and become `null`. -/
def ContactFormSubmission.get_by_id (fault : Option MError)
    (store : List (String × Submission)) (i : String) : Option ContactFormSubmission :=
  match fault with
  | some _ => none
  | none =>
      match findDoc store i with
      | none => none
      | some d =>
          some { id := i, name := d.name, email := d.email, subject := d.subject,
                 message := d.message, submission_timestamp := d.submission_timestamp }

/-- `ContactFormSubmission.update` (lines 131-147): `findOneAndUpdate` with
`$set: updateFields` returning the post-update document; errors are caught
and become `null`. -/
def ContactFormSubmission.update (fault : Option MError)
    (store : List (String × Submission)) (i : String) (updateFields : UpdateFields) :
    List (String × Submission) × Option ContactFormSubmission :=
  match fault with
  | some _ => (store, none)
  | none =>
      match findDoc store i with
      | none => (store, none)
      | some d =>
          (setDoc store i (applySet updateFields d),
           some { id := i, name := (applySet updateFields d).name,
                  email := (applySet updateFields d).email,
                  subject := (applySet updateFields d).subject,
                  message := (applySet updateFields d).message,
                  submission_timestamp := (applySet updateFields d).submission_timestamp })

/-- `ContactFormSubmission.delete` (lines 154-164): `deleteOne`, returning
`deletedCount === 1`; errors are caught and become `false`. -/
def ContactFormSubmission.delete (fault : Option MError)
    (store : List (String × Submission)) (i : String) :
    List (String × Submission) × Bool :=
  match fault with
  | some _ => (store, false)
  | none => ((deleteDoc store i).1, decide ((deleteDoc store i).2 = 1))

theorem setDoc_timestamps (u : UpdateFields) (hu : u.submission_timestamp = none)
    (store : List (String × Submission)) (i : String) (d : Submission)
    (h : findDoc store i = some d) :
    (setDoc store i (applySet u d)).map (fun kv => (kv.1, kv.2.submission_timestamp))
      = store.map fun kv => (kv.1, kv.2.submission_timestamp) := by
  induction store with
  | nil => simp [findDoc] at h
  | cons kv rest ih =>
    by_cases hk : kv.1 = i
    · simp only [findDoc, if_pos hk] at h
      obtain rfl : kv.2 = d := by injection h
      simp [setDoc, if_pos hk, applySet, hu, hk]
    · simp only [findDoc, if_neg hk] at h
      simp [setDoc, if_neg hk, ih h]

/-- Claim C9 counterexample: an `updateFields` containing
`submission_timestamp` changes the stored timestamp from 100 to 999 — the
field is not immutable under `update`. -/
theorem update_changes_timestamp :
    (ContactFormSubmission.update none
        [("a", { name := "n", email := "e", subject := "s", message := "m",
                 submission_timestamp := 100 })]
        "a"
        { name := none, email := none, subject := none, message := none,
          submission_timestamp := some 999 }).1
      = [("a", { name := "n", email := "e", subject := "s", message := "m",
                 submission_timestamp := 999 })] ∧
    (999 : Int) ≠ 100 := by
  refine ⟨rfl, by decide⟩

/-- Claim C9 (amended): `submission_timestamp` is assigned by the server at
creation — `create` stores the clock value `now`, not a caller-supplied
value — and `update` leaves every stored timestamp (and id) unchanged
whenever `updateFields` does not contain `submission_timestamp`. -/
theorem timestamp_server_assigned (fault : Option MError) (now : Int)
    (newId : String) (store : List (String × Submission))
    (n em su m : String) (i : String) (u : UpdateFields)
    (hu : u.submission_timestamp = none) :
    ((ContactFormSubmission.create none now newId store n em su m).2
      = some { id := newId, name := n, email := em, subject := su, message := m,
               submission_timestamp := now }) ∧
    ((ContactFormSubmission.update fault store i u).1.map
        (fun kv => (kv.1, kv.2.submission_timestamp))
      = store.map fun kv => (kv.1, kv.2.submission_timestamp)) := by
  refine ⟨rfl, ?_⟩
  cases fault with
  | some e => rfl
  | none =>
    unfold ContactFormSubmission.update
    cases hf : findDoc store i with
    | none => rfl
    | some d => exact setDoc_timestamps u hu store i d hf

/-- Witness for `timestamp_server_assigned` at a concrete input. -/
theorem timestamp_server_assigned_witness :
    ({ name := some "z", email := none, subject := none, message := none,
       submission_timestamp := none } : UpdateFields).submission_timestamp = none ∧
    (((ContactFormSubmission.create none 42 "id1"
          [("a", { name := "n", email := "e", subject := "s", message := "m",
                   submission_timestamp := 100 })] "a" "b" "c" "d").2
        = some { id := "id1", name := "a", email := "b", subject := "c", message := "d",
                 submission_timestamp := 42 }) ∧
     ((ContactFormSubmission.update none
          [("a", { name := "n", email := "e", subject := "s", message := "m",
                   submission_timestamp := 100 })] "a"
          { name := some "z", email := none, subject := none, message := none,
            submission_timestamp := none }).1.map
            (fun kv => (kv.1, kv.2.submission_timestamp))
        = ([("a", { name := "n", email := "e", subject := "s", message := "m",
                    submission_timestamp := 100 })] : List (String × Submission)).map
            fun kv => (kv.1, kv.2.submission_timestamp))) :=
  ⟨rfl, timestamp_server_assigned none 42 "id1"
      [("a", { name := "n", email := "e", subject := "s", message := "m",
               submission_timestamp := 100 })] "a" "b" "c" "d" "a"
      { name := some "z", email := none, subject := none, message := none,
        submission_timestamp := none } rfl⟩

/-- Claim C10: the four static methods catch every datastore failure — on
any fault `create`, `get_by_id` and `update` return `null` leaving the store
untouched, and `delete` returns `false` deleting nothing; in the fault-free
case `delete` returns `true` exactly when one document was deleted, which
happens exactly when a document with the given id exists. -/
theorem model_methods_never_raise (e : MError) (now : Int) (newId : String)
    (store : List (String × Submission)) (n em su m : String) (i : String)
    (u : UpdateFields) :
    ContactFormSubmission.create (some e) now newId store n em su m = (store, none) ∧
    ContactFormSubmission.get_by_id (some e) store i = none ∧
    ContactFormSubmission.update (some e) store i u = (store, none) ∧
    ContactFormSubmission.delete (some e) store i = (store, false) ∧
    ((ContactFormSubmission.delete none store i).2 = true ↔ (deleteDoc store i).2 = 1) ∧
    ((deleteDoc store i).2 = 1 ↔ ∃ d, findDoc store i = some d) := by
  refine ⟨rfl, rfl, rfl, rfl, by simp [ContactFormSubmission.delete], ?_⟩
  induction store with
  | nil => simp [deleteDoc, findDoc]
  | cons kv rest ih =>
    by_cases hk : kv.1 = i
    · simp [deleteDoc, findDoc, hk]
    · simp only [deleteDoc, findDoc, if_neg hk]
      exact ih

end Portfolio
